import Mathlib

/-!
# Verification of `apps/users/forms.py`

A shallow embedding of the user-subsystem form classes: the validation
(`clean*`) methods and the `save` method of `UserEditForm`, together with
the bulk-blacklist normalization of `BlacklistedUsernameAddForm`.

Conventions of the embedding:
* Submitted form data (`self.cleaned_data`) is passed explicitly; a key
  read with `data.get(k)` is an `Option String` (`none` = key absent or
  Python `None`), and Python string truthiness is `optTruthy`.
* The error dictionary `self._errors` is an association list
  `List (String × String)` (field name, message); Python dict assignment
  `self._errors[k] = ErrorList([msg])` is `setError`.
* `raise forms.ValidationError(msg)` is `Except.error ⟨msg⟩`.
* External collaborators are parameters: the profile's
  `check_password` is a function field of `UserProfile`,
  `BlacklistedUsername.blocked` is a function argument, configuration
  values (`settings.RECAPTCHA_PRIVATE_KEY`, `settings.MAX_PHOTO_UPLOAD_SIZE`)
  are arguments.
* Side effects of `UserEditForm.save` (logging, file I/O, task-queue
  enqueue, database save) are recorded as an ordered trace of `Event`s.
-/

/-- Embeds `raise forms.ValidationError(message)`. -/
structure ValidationError where
  message : String
  deriving DecidableEq, Repr

/-- Python truthiness of a string read with `data.get(k)`:
`none` (missing / `None`) and the empty string are falsy. -/
def optTruthy : Option String → Bool
  | none => false
  | some s => ¬ s = ""

/-- Python truthiness of a plain string. -/
def strTruthy (s : String) : Bool := ¬ s = ""

/-- Embeds `self._errors[key] = ErrorList([msg])`: dict assignment, overwriting
any previous entry for `key`. -/
def setError (key msg : String) (errs : List (String × String)) :
    List (String × String) :=
  errs.filter (fun e => ¬ e.1 = key) ++ [(key, msg)]

/-- The user-profile collaborator, as the forms use it: the ORM model's
`check_password` (hash match of a submitted password against the stored
credential) and the `is_developer` flag. -/
structure UserProfile where
  check_password : String → Bool
  is_developer : Bool

/-- Observable side effects of the forms, in program order. -/
inductive Event where
  | log_warning (msg : String)
  | log_info (msg : String)
  | log_debug (msg : String)
  | makedirs (dir : String)
  | fopen (path : String)
  | fwrite (chunk : String)
  | fclose
  | resize_photo_delay (src dst : String)
  | db_save
  deriving DecidableEq, Repr

namespace UserDeleteForm

/-- Embeds `UserDeleteForm.clean_password`: raises `ValidationError("Wrong password
entered!")` when the submitted password does not hash-match the requesting
account's stored credential; otherwise falls through (the method returns
`None`). -/
def clean_password (amouser : UserProfile) (password : String) :
    Except ValidationError Unit :=
  if ¬ amouser.check_password password then
    Except.error ⟨"Wrong password entered!"⟩
  else Except.ok ()

/-- Embeds `UserDeleteForm.clean`: if the requesting profile has `is_developer`
set, logs a tampering warning naming `self.request.user` and raises
`ValidationError("")`; the method reads no submitted field. -/
def clean (amouser : UserProfile) (request_user : String) :
    List Event × Except ValidationError Unit :=
  if amouser.is_developer then
    ([Event.log_warning
        ("[Tampering] Attempt to delete developer account (" ++
          request_user ++ ")")],
     Except.error ⟨""⟩)
  else ([], Except.ok ())

end UserDeleteForm

/-- The password-related keys of `cleaned_data` as the register and edit
forms read them (`data.get("password")`, `data.get("password2")`,
`data["oldpassword"]`); `none` models an absent key. -/
structure FormData where
  password : Option String
  password2 : Option String
  oldpassword : Option String
  deriving DecidableEq, Repr

namespace UserRegisterForm

/-- Embeds `UserRegisterForm.clean_username`: a username matched by the
`BlacklistedUsername.blocked` collaborator raises
`ValidationError("This username is invalid.")`; otherwise the name is
returned unchanged. -/
def clean_username (blocked : String → Bool) (name : String) :
    Except ValidationError String :=
  if blocked name then Except.error ⟨"This username is invalid."⟩
  else Except.ok name

/-- Embeds `UserRegisterForm.clean`: after the framework `super().clean()`
(model validation, a no-op on these keys), compares `data.get("password")`
with `data.get("password2")`; on mismatch records a field error on
`password2` and, when `password2` is truthy, deletes it from the data. -/
def clean (data : FormData) (errs : List (String × String)) :
    FormData × List (String × String) :=
  let p1 := data.password
  let p2 := data.password2
  if p1 = p2 then (data, errs)
  else
    let errs2 := setError "password2" "The passwords did not match." errs
    if optTruthy p2 then ({ data with password2 := none }, errs2)
    else (data, errs2)

/-- The form's field dictionary as assembled before `__init__` runs: the
`ModelForm` fields derived from `UserProfile` (external, a parameter)
plus the declared `password`, `password2` and `recaptcha` fields. -/
def base_fields (modelFields : List String) : List String :=
  modelFields ++ ["password", "password2", "recaptcha"]

/-- Embeds `UserRegisterForm.__init__`: deletes the `recaptcha` field when
`settings.RECAPTCHA_PRIVATE_KEY` is falsy (unset/empty). -/
def init_fields (modelFields : List String) (recaptcha_private_key : String) :
    List String :=
  let fields := base_fields modelFields
  if ¬ strTruthy recaptcha_private_key then fields.erase "recaptcha"
  else fields

end UserRegisterForm

/-- An uploaded file as `clean_photo` and `save` use it: declared content
type, byte size, and the chunk iterator's contents. -/
structure UploadedFile where
  content_type : String
  size : Nat
  chunks : List String
  deriving DecidableEq, Repr

namespace UserEditForm

/-- Embeds `UserEditForm`'s declared fields (inheriting `recaptcha` from
`UserRegisterForm`) on top of the `ModelForm` fields. -/
def base_fields (modelFields : List String) : List String :=
  modelFields ++ ["oldpassword", "password", "password2", "photo", "recaptcha"]

/-- Embeds `UserEditForm.__init__`: runs `UserRegisterForm.__init__` (which
deletes `recaptcha` when the key is falsy), then deletes `recaptcha`
whenever it is still present (`if self.fields.get('recaptcha')`). -/
def init_fields (modelFields : List String) (recaptcha_private_key : String) :
    List String :=
  let fields := base_fields modelFields
  let fields2 :=
    if ¬ strTruthy recaptcha_private_key then fields.erase "recaptcha"
    else fields
  if fields2.contains "recaptcha" then fields2.erase "recaptcha" else fields2

/-- Embeds `UserEditForm.clean`: when a new password or confirmation is supplied
(truthy), verifies `data["oldpassword"]` against the stored credential;
a mismatch records a field error on `oldpassword` and deletes the key.
Then `super().clean()` (`UserRegisterForm.clean`) runs on the same data
and errors. `none` models the `KeyError` on a missing `oldpassword`. -/
def clean (amouser : UserProfile) (data : FormData)
    (errs : List (String × String)) :
    Option (FormData × List (String × String)) :=
  let p1 := data.password
  let p2 := data.password2
  if optTruthy p1 ∨ optTruthy p2 then
    match data.oldpassword with
    | none => none
    | some oldpw =>
      if ¬ amouser.check_password oldpw then
        some (UserRegisterForm.clean { data with oldpassword := none }
          (setError "oldpassword" "Wrong password entered!" errs))
      else some (UserRegisterForm.clean data errs)
  else some (UserRegisterForm.clean data errs)

/-- Embeds `UserEditForm.clean_photo`: an absent/falsy photo passes (returning
`None`); otherwise the declared content type must be `image/png` or
`image/jpeg` and the size at most `settings.MAX_PHOTO_UPLOAD_SIZE`, each
violation raising a descriptive error (the size message uses Python
integer division, modelled on `Int`). -/
def clean_photo (max_photo_upload_size : Nat) (photo : Option UploadedFile) :
    Except ValidationError (Option UploadedFile) :=
  match photo with
  | none => Except.ok none
  | some photo =>
    if ¬ (photo.content_type = "image/png" ∨ photo.content_type = "image/jpeg")
    then Except.error ⟨"Images must be either PNG or JPG."⟩
    else if photo.size > max_photo_upload_size then
      Except.error ⟨"Please use images smaller than " ++
        toString ((max_photo_upload_size : Int) / 1024 / 1024 - 1) ++ "MB."⟩
    else Except.ok (some photo)

end UserEditForm

/-- The model instance built by `super().save(commit=False)`, with the
attributes `UserEditForm.save` reads or writes: its string representation
(for log messages), `picture_type`, `picture_path`, `picture_dir`, and the
effect of `set_password` (recorded, not hashed). -/
structure UserInstance where
  name : String
  picture_type : Option String
  picture_path : String
  picture_dir : String
  password_set_to : Option String
  deriving DecidableEq, Repr

/-- The keys of `cleaned_data` read by `UserEditForm.save`
(`data['photo']`, `data['password']`). -/
structure SaveData where
  photo : Option UploadedFile
  password : String
  deriving DecidableEq, Repr

namespace UserEditForm

/-- Embeds `UserEditForm.save`: with a truthy photo, sets `picture_type` to
`image/png`, ensures `picture_dir` exists (`dir_exists` models
`os.path.exists(u.picture_dir)`), opens `picture_path + '__unconverted'`,
writes every chunk, closes the handle, then enqueues
`tasks.resize_photo.delay(tmp_destination, u.picture_path)`. Afterwards a
truthy password is stored via `set_password` with an info log, a debug
log is emitted, and the instance is saved. Returns the updated instance
and the ordered trace of effects. -/
def save (dir_exists : Bool) (u : UserInstance) (data : SaveData) :
    UserInstance × List Event :=
  let step1 : UserInstance × List Event :=
    match data.photo with
    | some photo =>
      let u1 := { u with picture_type := some "image/png" }
      let tmp_destination := u1.picture_path ++ "__unconverted"
      (u1,
        (if dir_exists then [] else [Event.makedirs u1.picture_dir]) ++
        [Event.fopen tmp_destination] ++
        photo.chunks.map Event.fwrite ++
        [Event.fclose, Event.resize_photo_delay tmp_destination u1.picture_path])
    | none => (u, [])
  let step2 : UserInstance × List Event :=
    if strTruthy data.password then
      ({ step1.1 with password_set_to := some data.password },
       [Event.log_info ("User (" ++ step1.1.name ++ ") changed their password")])
    else (step1.1, [])
  (step2.1,
    step1.2 ++ step2.2 ++
    [Event.log_debug ("User (" ++ step2.1.name ++ ") updated their profile"),
     Event.db_save])

end UserEditForm

/-! ## Bulk blacklist normalization (`BlacklistedUsernameAddForm`) -/

/-- Python whitespace, as `unicode.strip()` removes it at the ends of a
line: space, tab, and the line/page separators. -/
def isPySpace (c : Char) : Bool :=
  c = ' ' ∨ c = '\t' ∨ c = '\n' ∨ c = '\x0b' ∨ c = '\x0c' ∨ c = '\r'

/-- Embeds `s.strip()`: drop whitespace from both ends. -/
def pyStrip (l : List Char) : List Char :=
  ((l.dropWhile isPySpace).reverse.dropWhile isPySpace).reverse

/-- Prepend a character to the first line of a split (helper for
`pySplitlines`). -/
def consHead (c : Char) : List (List Char) → List (List Char)
  | [] => [[c]]
  | l :: ls => (c :: l) :: ls

/-- Embeds `s.splitlines()` on the line boundaries `\r\n`, `\r`, `\n`: the list
of lines, without terminators; the empty string yields no lines and a
trailing terminator adds none. -/
def pySplitlines : List Char → List (List Char)
  | [] => []
  | '\r' :: '\n' :: rest => [] :: pySplitlines rest
  | '\r' :: rest => [] :: pySplitlines rest
  | '\n' :: rest => [] :: pySplitlines rest
  | c :: rest => consHead c (pySplitlines rest)

/-- Embeds `os.linesep.join` with the POSIX line separator `'\n'`. -/
def joinLinesep : List (List Char) → List Char
  | [] => []
  | [l] => l
  | l :: ls => l ++ '\n' :: joinLinesep ls

/-- The list comprehension
`[s.strip() for s in data['usernames'].splitlines() if s.strip()]`:
each line stripped, blank lines dropped. -/
def strippedLines (s : List Char) : List (List Char) :=
  ((pySplitlines s).map pyStrip).filter (fun l => ¬ l = [])

/-- The `usernames` normalization of `BlacklistedUsernameAddForm.clean`:
`os.linesep.join([s.strip() for s in u.splitlines() if s.strip()])`. -/
def normalizeUsernames (s : String) : String :=
  String.mk (joinLinesep (strippedLines s.data))

namespace BlacklistedUsernameAddForm

/-- Embeds `BlacklistedUsernameAddForm.clean`: when the `usernames` key is in
`cleaned_data` its value is replaced by the normalization; then, when the
key is absent or the normalized value is empty, a field error is recorded
on `usernames`. -/
def clean (usernames : Option String) (errs : List (String × String)) :
    Option String × List (String × String) :=
  let data :=
    match usernames with
    | some s => some (normalizeUsernames s)
    | none => none
  match data with
  | none =>
    (none, setError "usernames"
      "Please enter at least one username to blacklist." errs)
  | some s =>
    if s = "" then
      (some s, setError "usernames"
        "Please enter at least one username to blacklist." errs)
    else (some s, errs)

end BlacklistedUsernameAddForm

/-- Classifies the events that touch the filesystem or the task queue,
as opposed to logging and the database save. -/
def fileOrQueueEvent : Event → Bool
  | Event.makedirs _ => true
  | Event.fopen _ => true
  | Event.fwrite _ => true
  | Event.fclose => true
  | Event.resize_photo_delay _ _ => true
  | _ => false

/-- A line free of the modelled line-boundary characters. -/
def noNL (l : List Char) : Prop := ∀ c ∈ l, ¬ c = '\n' ∧ ¬ c = '\r'

/-- A sample profile for concrete evaluations: the stored credential
hash-matches exactly the string "secret"; not a developer. -/
def sampleProfile : UserProfile where
  check_password := fun s => s == "secret"
  is_developer := false

/-- A sample developer profile for concrete evaluations. -/
def sampleDeveloper : UserProfile where
  check_password := fun s => s == "secret"
  is_developer := true

/-- A sample profile-edit submission supplying a new password and a wrong
old password. -/
def sampleEditData : FormData := ⟨some "newpw", some "newpw", some "bad"⟩

/-! ## Facts about the error dictionary -/

theorem lookup_append (k : String) (l1 l2 : List (String × String)) :
    (l1 ++ l2).lookup k =
      match l1.lookup k with
      | some v => some v
      | none => l2.lookup k := by
  induction l1 with
  | nil => simp
  | cons e t ih =>
    obtain ⟨a, b⟩ := e
    by_cases h : k = a
    · have hb : (k == a) = true := by simp [h]
      simp [List.lookup_cons, hb]
    · have hb : (k == a) = false := by simp [h]
      simp [List.lookup_cons, hb, ih]

theorem lookup_filterOut_self (key : String) (errs : List (String × String)) :
    (errs.filter (fun e => ¬ e.1 = key)).lookup key = none := by
  induction errs with
  | nil => simp
  | cons e t ih =>
    obtain ⟨a, b⟩ := e
    by_cases h : a = key
    · simpa [List.filter_cons, h] using ih
    · have hb : (key == a) = false := by simp [Ne.symm h]
      simpa [List.filter_cons, h, List.lookup_cons, hb] using ih

theorem lookup_filterOut_ne (key k2 : String) (errs : List (String × String))
    (h : ¬ k2 = key) :
    (errs.filter (fun e => ¬ e.1 = key)).lookup k2 = errs.lookup k2 := by
  induction errs with
  | nil => simp
  | cons e t ih =>
    obtain ⟨a, b⟩ := e
    by_cases ha : a = key
    · have hb : (k2 == key) = false := by simp [h]
      simpa [List.filter_cons, ha, List.lookup_cons, hb] using ih
    · by_cases hk : k2 = a
      · have hb : (k2 == a) = true := by simp [hk]
        simp [List.filter_cons, ha, List.lookup_cons, hb]
      · have hb : (k2 == a) = false := by simp [hk]
        simpa [List.filter_cons, ha, List.lookup_cons, hb] using ih

theorem lookup_setError_self (key msg : String) (errs : List (String × String)) :
    (setError key msg errs).lookup key = some msg := by
  unfold setError
  rw [lookup_append, lookup_filterOut_self]
  simp [List.lookup_cons]

theorem lookup_setError_ne (key msg k2 : String) (errs : List (String × String))
    (h : ¬ k2 = key) :
    (setError key msg errs).lookup k2 = errs.lookup k2 := by
  have hb : (k2 == key) = false := by simp [h]
  unfold setError
  rw [lookup_append, lookup_filterOut_ne key k2 errs h]
  cases hl : errs.lookup k2 <;> simp [List.lookup_cons, hb]

theorem lookup_registerForm_clean (d : FormData) (errs : List (String × String))
    (k : String) (h : ¬ k = "password2") :
    ((UserRegisterForm.clean d errs).2).lookup k = errs.lookup k := by
  unfold UserRegisterForm.clean
  by_cases hp : d.password = d.password2
  · simp [hp]
  · by_cases h2 : optTruthy d.password2 <;>
      simp [hp, h2, lookup_setError_ne _ _ _ _ h]

/-! ## The claims -/

/-- C1: every password-change or account-deletion submission must
hash-match the stored credential. `UserDeleteForm.clean_password` succeeds
exactly when `check_password` accepts the submitted password and otherwise
raises the "Wrong password entered!" validation failure; `UserEditForm.clean`,
on an edit that supplies a new password or a confirmation, records an
`oldpassword` field error exactly when `check_password` rejects the
submitted old password. -/
theorem passwordVerification_hash_match
    (amouser : UserProfile) (pw : String) (d : FormData)
    (errs : List (String × String)) (opw : String)
    (hold : d.oldpassword = some opw)
    (hsupplied : optTruthy d.password ∨ optTruthy d.password2)
    (hfresh : (errs.lookup "oldpassword").isNone) :
    (UserDeleteForm.clean_password amouser pw = Except.ok () ↔
      amouser.check_password pw = true) ∧
    (UserDeleteForm.clean_password amouser pw =
        Except.error ⟨"Wrong password entered!"⟩ ↔
      amouser.check_password pw = false) ∧
    ∃ out, UserEditForm.clean amouser d errs = some out ∧
      (((out.2).lookup "oldpassword").isSome ↔
        amouser.check_password opw = false) := by
  refine ⟨?_, ?_, ?_⟩
  · unfold UserDeleteForm.clean_password
    cases h : amouser.check_password pw <;> simp [h]
  · unfold UserDeleteForm.clean_password
    cases h : amouser.check_password pw <;> simp [h]
  · cases hc : amouser.check_password opw with
    | false =>
      refine ⟨UserRegisterForm.clean { d with oldpassword := none }
        (setError "oldpassword" "Wrong password entered!" errs), ?_, ?_⟩
      · simp [UserEditForm.clean, hold, hsupplied, hc]
      · rw [lookup_registerForm_clean _ _ _ (by decide)]
        simp [lookup_setError_self]
    | true =>
      refine ⟨UserRegisterForm.clean d errs, ?_, ?_⟩
      · simp [UserEditForm.clean, hold, hsupplied, hc]
      · rw [lookup_registerForm_clean _ _ _ (by decide)]
        simp [Option.isNone_iff_eq_none.mp hfresh]

/-- Witness for C1 at a concrete profile and submission. -/
theorem passwordVerification_hash_match_witness :
    (UserDeleteForm.clean_password sampleProfile "wrong" = Except.ok () ↔
      sampleProfile.check_password "wrong" = true) ∧
    (UserDeleteForm.clean_password sampleProfile "wrong" =
        Except.error ⟨"Wrong password entered!"⟩ ↔
      sampleProfile.check_password "wrong" = false) ∧
    ∃ out, UserEditForm.clean sampleProfile sampleEditData [] = some out ∧
      (((out.2).lookup "oldpassword").isSome ↔
        sampleProfile.check_password "bad" = false) :=
  passwordVerification_hash_match sampleProfile "wrong" sampleEditData [] "bad"
    rfl (Or.inl (by decide)) (by decide)

/-- C2: a non-empty photo upload is accepted by `UserEditForm.clean_photo`
if and only if its declared content type is `image/png` or `image/jpeg`
and its size does not exceed `settings.MAX_PHOTO_UPLOAD_SIZE`; a wrong
content type raises the type error and an oversized upload raises the
size error with the configured limit in its message. -/
theorem photoUpload_type_and_size (max_photo_upload_size : Nat)
    (p : UploadedFile) :
    (UserEditForm.clean_photo max_photo_upload_size (some p) =
        Except.ok (some p) ↔
      ((p.content_type = "image/png" ∨ p.content_type = "image/jpeg") ∧
        p.size ≤ max_photo_upload_size)) ∧
    (¬ (p.content_type = "image/png" ∨ p.content_type = "image/jpeg") →
      UserEditForm.clean_photo max_photo_upload_size (some p) =
        Except.error ⟨"Images must be either PNG or JPG."⟩) ∧
    ((p.content_type = "image/png" ∨ p.content_type = "image/jpeg") →
      max_photo_upload_size < p.size →
      UserEditForm.clean_photo max_photo_upload_size (some p) =
        Except.error ⟨"Please use images smaller than " ++
          toString ((max_photo_upload_size : Int) / 1024 / 1024 - 1) ++
          "MB."⟩) := by
  refine ⟨?_, ?_, ?_⟩
  · unfold UserEditForm.clean_photo
    by_cases ht : p.content_type = "image/png" ∨ p.content_type = "image/jpeg"
    · by_cases hs : max_photo_upload_size < p.size
      · simp only [ht, not_true_eq_false, if_false, gt_iff_lt, hs, if_true]
        simp [Nat.not_le.mpr hs]
      · simp only [ht, not_true_eq_false, if_false, gt_iff_lt, hs, if_false]
        simp [ht, Nat.not_lt.mp hs]
    · simp [ht]
  · intro ht
    simp [UserEditForm.clean_photo, ht]
  · intro ht hs
    simp [UserEditForm.clean_photo, ht, hs, Nat.not_le.mpr hs]

/-- Witness for C2: a GIF is rejected for its type and a 6000000-byte JPEG
is rejected for its size at a 5242880-byte limit. -/
theorem photoUpload_type_and_size_witness :
    UserEditForm.clean_photo 5242880 (some ⟨"image/gif", 10, []⟩) =
      Except.error ⟨"Images must be either PNG or JPG."⟩ ∧
    UserEditForm.clean_photo 5242880 (some ⟨"image/jpeg", 6000000, []⟩) =
      Except.error ⟨"Please use images smaller than " ++
        toString (((5242880 : Nat) : Int) / 1024 / 1024 - 1) ++ "MB."⟩ :=
  ⟨(photoUpload_type_and_size 5242880 ⟨"image/gif", 10, []⟩).2.1 (by decide),
   (photoUpload_type_and_size 5242880 ⟨"image/jpeg", 6000000, []⟩).2.2
     (Or.inr rfl) (by decide)⟩

/-- C3: an account-deletion submission by a developer profile makes
`UserDeleteForm.clean` log the attempt as a `[Tampering]` warning and
reject the form with an empty-message validation error; the method reads
no other submitted field. -/
theorem developerDelete_tamper (amouser : UserProfile) (request_user : String)
    (h : amouser.is_developer = true) :
    UserDeleteForm.clean amouser request_user =
      ([Event.log_warning ("[Tampering] Attempt to delete developer account ("
          ++ request_user ++ ")")],
       Except.error ⟨""⟩) := by
  simp [UserDeleteForm.clean, h]

/-- Witness for C3 at a concrete developer profile. -/
theorem developerDelete_tamper_witness :
    UserDeleteForm.clean sampleDeveloper "dev" =
      ([Event.log_warning ("[Tampering] Attempt to delete developer account ("
          ++ "dev" ++ ")")],
       Except.error ⟨""⟩) :=
  developerDelete_tamper sampleDeveloper "dev" rfl

/-- C4: `UserRegisterForm.clean` records the mismatch error on the
`password2` field exactly when the two submitted password fields differ,
and leaves the error dictionary unchanged when they are equal. -/
theorem passwordConfirmation_mismatch (d : FormData)
    (errs : List (String × String))
    (hfresh : (errs.lookup "password2").isNone) :
    (((UserRegisterForm.clean d errs).2).lookup "password2" =
        some "The passwords did not match." ↔
      ¬ d.password = d.password2) ∧
    (d.password = d.password2 → (UserRegisterForm.clean d errs).2 = errs) := by
  constructor
  · by_cases hp : d.password = d.password2
    · simp [UserRegisterForm.clean, hp, Option.isNone_iff_eq_none.mp hfresh]
    · by_cases h2 : optTruthy d.password2 <;>
        simp [UserRegisterForm.clean, hp, h2, lookup_setError_self]
  · intro hp
    simp [UserRegisterForm.clean, hp]

/-- Witness for C4 at a concrete mismatching submission. -/
theorem passwordConfirmation_mismatch_witness :
    (((UserRegisterForm.clean ⟨some "a", some "b", none⟩ []).2).lookup
        "password2" = some "The passwords did not match." ↔
      ¬ (⟨some "a", some "b", none⟩ : FormData).password =
          (⟨some "a", some "b", none⟩ : FormData).password2) ∧
    ((⟨some "a", some "b", none⟩ : FormData).password =
        (⟨some "a", some "b", none⟩ : FormData).password2 →
      (UserRegisterForm.clean ⟨some "a", some "b", none⟩ []).2 = []) :=
  passwordConfirmation_mismatch ⟨some "a", some "b", none⟩ [] (by decide)

/-- C5: `UserRegisterForm.clean_username` raises the "This username is
invalid." validation failure exactly when the `BlacklistedUsername.blocked`
collaborator matches the submitted username, and returns a non-blocked
username unchanged. -/
theorem registerUsername_blacklist (blocked : String → Bool) (name : String) :
    (UserRegisterForm.clean_username blocked name =
        Except.error ⟨"This username is invalid."⟩ ↔ blocked name = true) ∧
    (UserRegisterForm.clean_username blocked name = Except.ok name ↔
      blocked name = false) := by
  unfold UserRegisterForm.clean_username
  cases h : blocked name <;> simp [h]

/-- C7: the CAPTCHA field is present on a constructed registration form
exactly when `settings.RECAPTCHA_PRIVATE_KEY` is set (truthy), while
`UserEditForm.__init__` removes it regardless of configuration; the
`ModelForm`-derived fields are assumed not to contain a `recaptcha` key of
their own. -/
theorem recaptcha_field_presence (modelFields : List String) (key : String)
    (h : "recaptcha" ∉ modelFields) :
    ("recaptcha" ∈ UserRegisterForm.init_fields modelFields key ↔
      ¬ key = "") ∧
    "recaptcha" ∉ UserEditForm.init_fields modelFields key := by
  have hr : (UserRegisterForm.base_fields modelFields).count "recaptcha"
      = 1 := by
    simp [UserRegisterForm.base_fields, List.count_append,
      List.count_eq_zero.mpr h]
  have he : (UserEditForm.base_fields modelFields).count "recaptcha" = 1 := by
    simp [UserEditForm.base_fields, List.count_append,
      List.count_eq_zero.mpr h]
  have hmr : "recaptcha" ∈ UserRegisterForm.base_fields modelFields :=
    List.mem_append.mpr (Or.inr (by decide))
  have hme : "recaptcha" ∈ UserEditForm.base_fields modelFields :=
    List.mem_append.mpr (Or.inr (by decide))
  have her :
      "recaptcha" ∉ (UserRegisterForm.base_fields modelFields).erase
        "recaptcha" := by
    rw [← List.count_eq_zero, List.count_erase_self, hr]
  have hee :
      "recaptcha" ∉ (UserEditForm.base_fields modelFields).erase
        "recaptcha" := by
    rw [← List.count_eq_zero, List.count_erase_self, he]
  constructor
  · by_cases hk : key = ""
    · simp [UserRegisterForm.init_fields, strTruthy, hk, her]
    · simp [UserRegisterForm.init_fields, strTruthy, hk, hmr]
  · by_cases hk : key = ""
    · have hcond : ¬ strTruthy key = true := by simp [strTruthy, hk]
      have h1 : UserEditForm.init_fields modelFields key =
          (if ((UserEditForm.base_fields modelFields).erase
                "recaptcha").contains "recaptcha" = true
            then ((UserEditForm.base_fields modelFields).erase
                "recaptcha").erase "recaptcha"
            else (UserEditForm.base_fields modelFields).erase "recaptcha") := by
        simp only [UserEditForm.init_fields]
        rw [if_pos hcond]
      rw [h1]
      by_cases hc : ((UserEditForm.base_fields modelFields).erase
          "recaptcha").contains "recaptcha" = true
      · rw [if_pos hc]
        intro hmem
        exact hee (List.mem_of_mem_erase hmem)
      · rw [if_neg hc]
        exact hee
    · have hcond : ¬ ¬ strTruthy key = true := by simp [strTruthy, hk]
      have hcontains :
          (UserEditForm.base_fields modelFields).contains "recaptcha"
            = true := List.elem_iff.mpr hme
      have h1 : UserEditForm.init_fields modelFields key =
          (UserEditForm.base_fields modelFields).erase "recaptcha" := by
        simp only [UserEditForm.init_fields]
        rw [if_neg hcond, if_pos hcontains]
      rw [h1]
      exact hee

/-- Witness for C7: a one-field model, with the key set and unset. -/
theorem recaptcha_field_presence_witness :
    (("recaptcha" ∈ UserRegisterForm.init_fields ["username"] "k" ↔
        ¬ "k" = "") ∧
      "recaptcha" ∉ UserEditForm.init_fields ["username"] "k") ∧
    (("recaptcha" ∈ UserRegisterForm.init_fields ["username"] "" ↔
        ¬ "" = "") ∧
      "recaptcha" ∉ UserEditForm.init_fields ["username"] "") :=
  ⟨recaptcha_field_presence ["username"] "k" (by decide),
   recaptcha_field_presence ["username"] "" (by decide)⟩

/-- C9: `UserEditForm.save` with a non-empty photo sets the saved
profile's `picture_type` to `image/png`, whatever content type the upload
declared. -/
theorem save_picture_type_png (dir_exists : Bool) (u : UserInstance)
    (data : SaveData) (p : UploadedFile) (h : data.photo = some p) :
    ((UserEditForm.save dir_exists u data).1).picture_type =
      some "image/png" := by
  unfold UserEditForm.save
  rw [h]
  by_cases hp : strTruthy data.password <;> simp [hp]

/-- Witness for C9: the upload declares `image/jpeg`, the stored type is
still `image/png`. -/
theorem save_picture_type_png_witness :
    (⟨"image/jpeg", 4, ["ab"]⟩ : UploadedFile).content_type = "image/jpeg" ∧
    ((UserEditForm.save true ⟨"u", none, "/p/pic", "/p", none⟩
        ⟨some ⟨"image/jpeg", 4, ["ab"]⟩, ""⟩).1).picture_type =
      some "image/png" :=
  ⟨rfl, save_picture_type_png true ⟨"u", none, "/p/pic", "/p", none⟩
    ⟨some ⟨"image/jpeg", 4, ["ab"]⟩, ""⟩ ⟨"image/jpeg", 4, ["ab"]⟩ rfl⟩

/-- C8: with a non-empty photo, the trace of `UserEditForm.save` opens the
temporary path `picture_path ++ "__unconverted"` (after creating the
picture directory when missing), writes every chunk of the upload, closes
the handle, and only then enqueues `tasks.resize_photo.delay` with that
temporary path and `picture_path`; every event after the enqueue touches
neither the filesystem nor the task queue. -/
theorem save_write_before_enqueue (dir_exists : Bool) (u : UserInstance)
    (data : SaveData) (p : UploadedFile) (h : data.photo = some p) :
    ∃ post : List Event,
      (UserEditForm.save dir_exists u data).2 =
        (if dir_exists then [] else [Event.makedirs u.picture_dir]) ++
        [Event.fopen (u.picture_path ++ "__unconverted")] ++
        p.chunks.map Event.fwrite ++
        [Event.fclose,
         Event.resize_photo_delay (u.picture_path ++ "__unconverted")
           u.picture_path] ++
        post ∧
      ∀ e ∈ post, fileOrQueueEvent e = false := by
  by_cases hp : strTruthy data.password
  · refine ⟨[Event.log_info ("User (" ++ u.name ++ ") changed their password"),
      Event.log_debug ("User (" ++ u.name ++ ") updated their profile"),
      Event.db_save], ?_, ?_⟩
    · simp [UserEditForm.save, h, hp]
    · intro e he
      simp only [List.mem_cons, List.not_mem_nil, or_false] at he
      rcases he with rfl | rfl | rfl <;> rfl
  · refine ⟨[Event.log_debug ("User (" ++ u.name ++ ") updated their profile"),
      Event.db_save], ?_, ?_⟩
    · simp [UserEditForm.save, h, hp]
    · intro e he
      simp only [List.mem_cons, List.not_mem_nil, or_false] at he
      rcases he with rfl | rfl <;> rfl

/-- Witness for C8 at a concrete two-chunk upload, with and without a new
password. -/
theorem save_write_before_enqueue_witness :
    (∃ post : List Event,
      (UserEditForm.save false ⟨"u", none, "/p/pic", "/p", none⟩
          ⟨some ⟨"image/png", 4, ["ab", "cd"]⟩, "npw"⟩).2 =
        (if false then [] else [Event.makedirs "/p"]) ++
        [Event.fopen ("/p/pic" ++ "__unconverted")] ++
        (["ab", "cd"] : List String).map Event.fwrite ++
        [Event.fclose,
         Event.resize_photo_delay ("/p/pic" ++ "__unconverted") "/p/pic"] ++
        post ∧
      ∀ e ∈ post, fileOrQueueEvent e = false) :=
  save_write_before_enqueue false ⟨"u", none, "/p/pic", "/p", none⟩
    ⟨some ⟨"image/png", 4, ["ab", "cd"]⟩, "npw"⟩ ⟨"image/png", 4, ["ab", "cd"]⟩
    rfl

/-! ## Facts about the line normalization -/

theorem consHead_cons (c : Char) (l : List Char) (ls : List (List Char)) :
    consHead c (l :: ls) = (c :: l) :: ls := rfl

theorem pySplitlines_lf (rest : List Char) :
    pySplitlines ('\n' :: rest) = [] :: pySplitlines rest := rfl

theorem pySplitlines_other (c : Char) (rest : List Char) (h1 : ¬ c = '\n')
    (h2 : ¬ c = '\r') :
    pySplitlines (c :: rest) = consHead c (pySplitlines rest) := by
  simp [pySplitlines, h1, h2]

theorem pySplitlines_append_lf : ∀ (l rest : List Char), noNL l →
    pySplitlines (l ++ '\n' :: rest) = l :: pySplitlines rest
  | [], rest, _ => by rw [List.nil_append, pySplitlines_lf]
  | c :: t, rest, h => by
    have hc := h c (List.mem_cons_self c t)
    have ht : noNL t := fun x hx => h x (List.mem_cons_of_mem c hx)
    rw [List.cons_append, pySplitlines_other c _ hc.1 hc.2,
      pySplitlines_append_lf t rest ht, consHead_cons]

theorem pySplitlines_noNL : ∀ (l : List Char), noNL l → ¬ l = [] →
    pySplitlines l = [l]
  | [], _, hne => absurd rfl hne
  | c :: t, h, _ => by
    have hc := h c (List.mem_cons_self c t)
    have ht : noNL t := fun x hx => h x (List.mem_cons_of_mem c hx)
    rw [pySplitlines_other c t hc.1 hc.2]
    cases t with
    | nil => rfl
    | cons d t2 =>
      rw [pySplitlines_noNL (d :: t2) ht (by simp), consHead_cons]

theorem pySplitlines_joinLinesep : ∀ (ls : List (List Char)),
    (∀ l ∈ ls, noNL l ∧ ¬ l = []) → pySplitlines (joinLinesep ls) = ls
  | [], _ => rfl
  | [l], h => by
    have hl := h l (List.mem_singleton.mpr rfl)
    rw [show joinLinesep [l] = l from rfl, pySplitlines_noNL l hl.1 hl.2]
  | l :: l2 :: ls, h => by
    have h1 := h l (List.mem_cons_self _ _)
    rw [show joinLinesep (l :: l2 :: ls) = l ++ '\n' :: joinLinesep (l2 :: ls)
        from rfl,
      pySplitlines_append_lf l _ h1.1,
      pySplitlines_joinLinesep (l2 :: ls)
        (fun x hx => h x (List.mem_cons_of_mem l hx))]

theorem noNL_of_mem_pySplitlines (l : List Char) :
    ∀ l' ∈ pySplitlines l, noNL l' := by
  induction l using pySplitlines.induct with
  | case1 =>
    intro l' hl'
    simp [pySplitlines] at hl'
  | case2 rest ih =>
    intro l' hl'
    rw [show pySplitlines ('\r' :: '\n' :: rest) = [] :: pySplitlines rest
        from rfl] at hl'
    rcases List.mem_cons.mp hl' with rfl | hm
    · intro c hc
      simp at hc
    · exact ih l' hm
  | case3 rest hne ih =>
    intro l' hl'
    have heq : pySplitlines ('\r' :: rest) = [] :: pySplitlines rest := by
      cases rest with
      | nil => rfl
      | cons d t =>
        have hd : ¬ d = '\n' := fun hdeq => hne t (by rw [hdeq])
        simp [pySplitlines, hd]
    rw [heq] at hl'
    rcases List.mem_cons.mp hl' with rfl | hm
    · intro c hc
      simp at hc
    · exact ih l' hm
  | case4 rest ih =>
    intro l' hl'
    rw [pySplitlines_lf] at hl'
    rcases List.mem_cons.mp hl' with rfl | hm
    · intro c hc
      simp at hc
    · exact ih l' hm
  | case5 c rest h1 h2 h3 ih =>
    intro l' hl'
    have hcn : ¬ c = '\n' := h3
    have hcr : ¬ c = '\r' := h2
    rw [pySplitlines_other c rest hcn hcr] at hl'
    cases hps : pySplitlines rest with
    | nil =>
      rw [hps] at hl'
      have : l' = [c] := by simpa [consHead] using hl'
      subst this
      intro x hx
      rcases List.mem_singleton.mp hx with rfl
      exact ⟨hcn, hcr⟩
    | cons h0 t0 =>
      rw [hps, consHead_cons] at hl'
      rcases List.mem_cons.mp hl' with rfl | hm
      · intro x hx
        rcases List.mem_cons.mp hx with rfl | hx0
        · exact ⟨hcn, hcr⟩
        · exact ih h0 (hps ▸ List.mem_cons_self h0 t0) x hx0
      · exact ih l' (hps ▸ List.mem_cons_of_mem h0 hm)

theorem dropWhile_eq_self_of_prefix {p : Char → Bool} :
    ∀ {m a : List Char}, m <+: a → a.dropWhile p = a → m.dropWhile p = m
  | [], _, _, _ => rfl
  | x :: m2, a, hpre, ha => by
    obtain ⟨t, ht⟩ := hpre
    have hx : p x = false := by
      by_contra hpx
      have hpx2 : p x = true := by
        cases hv : p x with
        | true => rfl
        | false => exact absurd hv hpx
      rw [← ht, List.cons_append, List.dropWhile_cons, hpx2, if_pos rfl] at ha
      have hlen := (List.dropWhile_sublist (l := m2 ++ t) p).length_le
      rw [ha] at hlen
      simp at hlen
    rw [List.dropWhile_cons, hx]
    simp

theorem pyStrip_dropWhile (l : List Char) :
    (pyStrip l).dropWhile isPySpace = pyStrip l := by
  have hpre : pyStrip l <+: l.dropWhile isPySpace := by
    unfold pyStrip
    have h0 := List.reverse_prefix.mpr
      (List.dropWhile_suffix (l := (l.dropWhile isPySpace).reverse) isPySpace)
    rwa [List.reverse_reverse] at h0
  exact dropWhile_eq_self_of_prefix hpre
    (List.dropWhile_idempotent isPySpace l)

theorem pyStrip_reverse_dropWhile (l : List Char) :
    (pyStrip l).reverse.dropWhile isPySpace = (pyStrip l).reverse := by
  unfold pyStrip
  rw [List.reverse_reverse]
  exact List.dropWhile_idempotent isPySpace _

theorem pyStrip_idem (l : List Char) : pyStrip (pyStrip l) = pyStrip l := by
  rw [show pyStrip (pyStrip l) =
    (((pyStrip l).dropWhile isPySpace).reverse.dropWhile isPySpace).reverse
    from rfl]
  rw [pyStrip_dropWhile, pyStrip_reverse_dropWhile, List.reverse_reverse]

theorem noNL_pyStrip (l : List Char) (h : noNL l) : noNL (pyStrip l) := by
  intro c hc
  apply h
  unfold pyStrip at hc
  rw [List.mem_reverse] at hc
  have h1 := (List.dropWhile_sublist isPySpace).subset hc
  rw [List.mem_reverse] at h1
  exact (List.dropWhile_sublist isPySpace).subset h1

theorem strippedLines_spec (s : List Char) :
    ∀ l ∈ strippedLines s, noNL l ∧ ¬ l = [] ∧ pyStrip l = l := by
  intro l hl
  obtain ⟨hmap, hfilt⟩ := List.mem_filter.mp hl
  obtain ⟨l0, hl0, rfl⟩ := List.mem_map.mp hmap
  have hn0 := noNL_of_mem_pySplitlines s l0 hl0
  exact ⟨noNL_pyStrip l0 hn0, of_decide_eq_true hfilt, pyStrip_idem l0⟩

theorem strippedLines_joinLinesep (ls : List (List Char))
    (h : ∀ l ∈ ls, noNL l ∧ ¬ l = [] ∧ pyStrip l = l) :
    strippedLines (joinLinesep ls) = ls := by
  unfold strippedLines
  rw [pySplitlines_joinLinesep ls (fun l hl => ⟨(h l hl).1, (h l hl).2.1⟩)]
  rw [List.map_congr_left (fun l hl => (h l hl).2.2), List.map_id']
  rw [List.filter_eq_self.mpr (fun l hl => decide_eq_true (h l hl).2.1)]

theorem joinLinesep_eq_nil (ls : List (List Char))
    (h : ∀ l ∈ ls, ¬ l = []) : joinLinesep ls = [] ↔ ls = [] := by
  cases ls with
  | nil => simp [joinLinesep]
  | cons l t =>
    cases t with
    | nil =>
      rw [show joinLinesep [l] = l from rfl]
      simp [h l (List.mem_singleton.mpr rfl)]
    | cons l2 t2 =>
      rw [show joinLinesep (l :: l2 :: t2) = l ++ '\n' :: joinLinesep (l2 :: t2)
          from rfl]
      simp

theorem normalizeUsernames_eq_empty (s : String) :
    normalizeUsernames s = "" ↔ strippedLines s.data = [] := by
  unfold normalizeUsernames
  rw [show ("" : String) = String.mk [] from rfl, String.ext_iff]
  exact joinLinesep_eq_nil _
    (fun l hl => (strippedLines_spec s.data l hl).2.1)

/-- C6: `BlacklistedUsernameAddForm.clean` records the `usernames` field
error exactly when the key is absent from cleaned data or every submitted
line is blank after stripping; a submission with at least one non-blank
line records no such error. -/
theorem bulkBlacklist_requires_username (s : String)
    (errs : List (String × String))
    (hfresh : (errs.lookup "usernames").isNone) :
    ((((BlacklistedUsernameAddForm.clean (some s) errs).2).lookup
        "usernames").isSome ↔ strippedLines s.data = []) ∧
    (((BlacklistedUsernameAddForm.clean none errs).2).lookup
        "usernames").isSome := by
  constructor
  · by_cases he : normalizeUsernames s = ""
    · simp [BlacklistedUsernameAddForm.clean, he, lookup_setError_self,
        (normalizeUsernames_eq_empty s).mp he]
    · simp [BlacklistedUsernameAddForm.clean, he,
        Option.isNone_iff_eq_none.mp hfresh]
      exact fun hl => he ((normalizeUsernames_eq_empty s).mpr hl)
  · simp [BlacklistedUsernameAddForm.clean, lookup_setError_self]

/-- Witness for C6: an all-blank submission and an absent key both record
the error. -/
theorem bulkBlacklist_requires_username_witness :
    ((((BlacklistedUsernameAddForm.clean (some "  \n ") []).2).lookup
        "usernames").isSome ↔ strippedLines ("  \n " : String).data = []) ∧
    (((BlacklistedUsernameAddForm.clean none []).2).lookup
        "usernames").isSome :=
  bulkBlacklist_requires_username "  \n " [] (by decide)

/-- C10: the bulk-username normalization (strip each line, drop blank
lines, join with the platform line separator) is idempotent: applied to an
already-normalized string it returns it unchanged. -/
theorem bulkNormalization_idempotent (s : String) :
    normalizeUsernames (normalizeUsernames s) = normalizeUsernames s := by
  unfold normalizeUsernames
  rw [show (String.mk (joinLinesep (strippedLines s.data))).data =
    joinLinesep (strippedLines s.data) from rfl]
  rw [strippedLines_joinLinesep _ (strippedLines_spec s.data)]
